import Mathlib

/-!
Shallow embedding of the tracking_pixel ingestion pipeline: the data model
(src/tracker/models.py), the event serializer (src/tracker/serializers.py,
EventSerializer.create and its validation), the collect views
(src/tracker/views.py) and the enrichment task (src/tracker/tasks.py),
together with theorems settling the specification claims.

Machine conventions: database rows are Lean structures, tables are lists,
the server clock is an explicit natural-number argument, fallible Python
code is modelled with Except/Option, and Python truthiness of strings is
modelled explicitly.  External library behaviour (GeoIP reader, json
encode/decode) is passed in as an environment record.
-/

namespace TrackingPixel

/-- Python truthiness for an optional string: None and the empty string are falsy. -/
def truthy : Option String → Bool
  | some s => !s.isEmpty
  | none => false

/-- ASCII model of Python str.lower, used for case-insensitive comparison and storage. -/
def lowerStr (s : String) : String := String.mk (s.data.map Char.toLower)

/-- Overwrite helper: the incoming value when present, else the stored one. -/
def ovr (newVal old : Option String) : Option String :=
  match newVal with
  | some v => some v
  | none => old

/-- Model of dict.pop(key, None) on an association list with unique keys:
the first value stored under the key, and the list with that entry removed. -/
def popKey : List (String × String) → String → Option String × List (String × String)
  | [], _ => (none, [])
  | (k, v) :: rest, key =>
    if k = key then (some v, rest)
    else
      let r := popKey rest key
      (r.1, (k, v) :: r.2)

/-- Model of dict.get(key) on an association list. -/
def lookupKey (l : List (String × String)) (key : String) : Option String :=
  (l.find? (fun e => e.1 = key)).map (fun e => e.2)

/-- Boolean test that the first character list is an initial segment of the second. -/
def prefixAt : List Char → List Char → Bool
  | [], _ => true
  | _ :: _, [] => false
  | p :: ps, c :: cs => p == c && prefixAt ps cs

/-- Boolean substring test on character lists, modelling Python (pat in s). -/
def hasSub (pat : List Char) : List Char → Bool
  | [] => pat.isEmpty
  | c :: cs => prefixAt pat (c :: cs) || hasSub pat cs

/-- Python substring membership test for strings. -/
def strContainsSub (s pat : String) : Bool := hasSub pat.data s.data

/-- Every character in the list is an ASCII digit. -/
def allDigits (l : List Char) : Bool := l.all Char.isDigit

/-- Value of a list of ASCII digits read in base ten. -/
def natOfDigits (l : List Char) : Nat := l.foldl (fun a c => a * 10 + (c.toNat - 48)) 0

/-- Recognizer for a calendar date written YYYY-MM-DD (months 1-12, days 1-31). -/
def dateOk : List Char → Bool
  | [y1, y2, y3, y4, s1, m1, m2, s2, d1, d2] =>
    allDigits [y1, y2, y3, y4, m1, m2, d1, d2] && s1 == '-' && s2 == '-' &&
    decide (1 ≤ natOfDigits [m1, m2] ∧ natOfDigits [m1, m2] ≤ 12) &&
    decide (1 ≤ natOfDigits [d1, d2] ∧ natOfDigits [d1, d2] ≤ 31)
  | _ => false

/-- Recognizer for an hour-minute pair HHMM already split from its separators. -/
def hmOk (h1 h2 m1 m2 : Char) : Bool :=
  allDigits [h1, h2, m1, m2] &&
  decide (natOfDigits [h1, h2] ≤ 23) && decide (natOfDigits [m1, m2] ≤ 59)

/-- Recognizer for a seconds field SS. -/
def secOk (s1 s2 : Char) : Bool := allDigits [s1, s2] && decide (natOfDigits [s1, s2] ≤ 59)

/-- Recognizer for a fractional-seconds field of one to six digits. -/
def fracOk (l : List Char) : Bool := decide (1 ≤ l.length ∧ l.length ≤ 6) && allDigits l

/-- Recognizer for the clock part HH:MM, HH:MM:SS or HH:MM:SS.ffffff. -/
def timeCore : List Char → Bool
  | [h1, h2, c1, m1, m2] => c1 == ':' && hmOk h1 h2 m1 m2
  | [h1, h2, c1, m1, m2, c2, s1, s2] =>
    c1 == ':' && c2 == ':' && hmOk h1 h2 m1 m2 && secOk s1 s2
  | h1 :: h2 :: c1 :: m1 :: m2 :: c2 :: s1 :: s2 :: c3 :: frac =>
    c1 == ':' && c2 == ':' && c3 == '.' && hmOk h1 h2 m1 m2 && secOk s1 s2 && fracOk frac
  | _ => false

/-- Split a time string at the first sign character, separating a UTC-offset suffix. -/
def splitAtSign : List Char → List Char × Option (List Char)
  | [] => ([], none)
  | c :: cs =>
    if c == '+' || c == '-' then ([], some cs)
    else
      let r := splitAtSign cs
      (c :: r.1, r.2)

/-- Recognizer for a UTC offset body HH:MM (the sign has already been removed). -/
def offsetOk : List Char → Bool
  | [h1, h2, c1, m1, m2] => c1 == ':' && hmOk h1 h2 m1 m2
  | _ => false

/-- Recognizer for the time-of-day part with an optional signed offset. -/
def timeOk (l : List Char) : Bool :=
  let r := splitAtSign l
  timeCore r.1 && (match r.2 with | none => true | some off => offsetOk off)

/-- Model of Python datetime.fromisoformat on the shapes relevant to the pipeline:
a date YYYY-MM-DD optionally followed by a separator and a time with optional
offset.  Returns the accepted string as the parsed value (the pipeline only
stores it); none models the ValueError raised on any other input. -/
def pyFromIso (s : String) : Option String :=
  let l := s.data
  if decide (l.length = 10) then (if dateOk l then some s else none)
  else if decide (10 < l.length) then
    (if dateOk (l.take 10) &&
        (match l.drop 10 with
         | sep :: rest => (sep == 'T' || sep == ' ') && timeOk rest
         | [] => false) then some s else none)
  else none

/-- The character-level body of the replacement of each Z by +00:00. -/
def replaceZchars : List Char → List Char
  | [] => []
  | c :: cs =>
    if c = 'Z' then '+' :: '0' :: '0' :: ':' :: '0' :: '0' :: replaceZchars cs
    else c :: replaceZchars cs

/-- Python client_ts_str.replace("Z", "+00:00"): the pattern is the single
character Z, so the replacement is character-wise. -/
def replaceZ (s : String) : String := String.mk (replaceZchars s.data)

/-- Lines 105-106 of serializers.py: the client timestamp string is falsy-checked,
its literal Z occurrences replaced by +00:00, and fed to datetime.fromisoformat
with no try/except, so a parse failure raises ValueError (modelled as error). -/
def parse_client_ts : Option String → Except Unit (Option String)
  | none => .ok none
  | some s =>
    if s.isEmpty then .ok none
    else
      match pyFromIso (replaceZ s) with
      | some d => .ok (some d)
      | none => .error ()

/-- Event type choices of tracker.models.Event (EVENT_TYPE_CHOICES). -/
inductive EventType
  | page_load
  | form_submission
  | custom_event
deriving DecidableEq

/-- tracker.models.Lead: a deduplicated contact row.  email and phone carry
unique constraints; created_at is auto_now_add.  The synthetic id models the
implicit primary key. -/
structure Lead where
  id : Nat
  first_name : Option String := none
  last_name : Option String := none
  email : Option String := none
  phone : Option String := none
  property_address : Option String := none
  created_at : Nat := 0
deriving DecidableEq

/-- tracker.models.Session (models.py lines 18-27), one browsing session
keyed by the unique session_id.  first_seen is auto_now_add (set once at
creation), last_seen is auto_now (bumped on every save).  These are the only
columns the model defines: it has no user_external_id, user_email or
user_name, although EventSerializer.create passes those names in the
get_or_create defaults and reads them as attributes — which is why the
session step of the pipeline raises, as modelled in touchSession below. -/
structure Session where
  session_id : String
  client_id : Option String := none
  site_key : Option String := none
  user_agent : Option String := none
  device_info : Option String := none
  ip_address : Option String := none
  location_data : Option String := none
  first_seen : Nat := 0
  last_seen : Nat := 0
deriving DecidableEq

/-- tracker.models.Event: one tracked occurrence.  pk models the BigAutoField
primary key; event_id carries a unique constraint; the session reference is
kept as the owning session_id and the lead reference as the lead's id.
Numeric-ish meta fields arriving as payload strings are stored as strings.
event_type is kept as the raw stored string: the Event.objects.create call
of serializers.py lines 181-202 never passes event_type (it was popped at
line 76 and dropped), so the persisted row holds the CharField default,
the empty string. -/
structure Event where
  pk : Nat
  event_id : String
  schema_version : Int
  site_key : String
  session_id : String
  lead : Option Nat := none
  event_type : String := ""
  url : Option String := none
  page_title : Option String := none
  referrer : Option String := none
  language : Option String := none
  tz_offset_min : Option String := none
  viewport : Option (Option String × Option String) := none
  screen : Option (Option String × Option String × Option String) := none
  utm_source : Option String := none
  utm_medium : Option String := none
  utm_campaign : Option String := none
  utm_term : Option String := none
  utm_content : Option String := none
  event_data : List (String × String) := []
  client_ts : Option String := none
  created_at : Nat := 0
deriving DecidableEq

/-- The persistent store: the three tables plus counters for the synthetic
auto-increment keys.  Each Django save/create commits immediately (the views
wrap nothing in a transaction), so partial states after an exception are
faithfully represented. -/
structure DB where
  leads : List Lead := []
  sessions : List Session := []
  events : List Event := []
  nextLeadId : Nat := 0
  nextEventPk : Nat := 0
deriving DecidableEq

/-- A validated event payload as EventSerializer.create receives it
(validated_data): exactly the serializer's declared fields.  event_data is the
free-form map (string keys and values suffice for every field the pipeline
extracts); the optional lead-hint fields may be blank strings (allow_blank). -/
structure Payload where
  schema_version : Int
  site_key : String
  event_id : String
  event_type : EventType
  session_id : String
  client_id : Option String := none
  event_data : List (String × String) := []
  first_name : Option String := none
  last_name : Option String := none
  email : Option String := none
  phone : Option String := none
  property_address : Option String := none
deriving DecidableEq

/-- Ambient request context consumed by the serializer: the forwarded-for
header, the remote address and the user-agent header. -/
structure ReqCtx where
  http_x_forwarded_for : Option String := none
  remote_addr : Option String := none
  http_user_agent : Option String := none
deriving DecidableEq

/-- Client IP extraction (serializers.py lines 129-130 and views._client_ip):
the first comma-separated hop of a truthy forwarded-for header, stripped,
else the remote address. -/
def client_ip (r : ReqCtx) : Option String :=
  match r.http_x_forwarded_for with
  | some xff => if xff.isEmpty then r.remote_addr else some (((xff.splitOn ",").headD xff).trim)
  | none => r.remote_addr

/-- Fields flattened out of the free-form event_data map by
EventSerializer.create (lines 85-116).  The corresponding top-level pops all
yield None because none of those names are serializer fields, so each value
comes from the meta-prefixed (or identity-prefixed, or utm) key; residual is
what remains of event_data and is stored on the Event. -/
structure Normalized where
  user_external_id : Option String
  user_email : Option String
  user_name : Option String
  url : Option String
  page_title : Option String
  referrer : Option String
  language : Option String
  tz_offset_min : Option String
  viewport : Option (Option String × Option String)
  screen : Option (Option String × Option String × Option String)
  client_ts_str : Option String
  utm_source : Option String
  utm_medium : Option String
  utm_campaign : Option String
  utm_term : Option String
  utm_content : Option String
  residual : List (String × String)

/-- The chain of event_data.pop calls of EventSerializer.create, in source
order. -/
def normalizeEventData (ed0 : List (String × String)) : Normalized :=
  let p1 := popKey ed0 "identity_user_id"
  let p2 := popKey p1.2 "identity_user_email"
  let p3 := popKey p2.2 "identity_user_name"
  let p4 := popKey p3.2 "meta_url"
  let p5 := popKey p4.2 "meta_page_title"
  let p6 := popKey p5.2 "meta_referrer"
  let p7 := popKey p6.2 "meta_language"
  let p8 := popKey p7.2 "meta_tz_offset_min"
  let p9 := popKey p8.2 "meta_vw"
  let p10 := popKey p9.2 "meta_vh"
  let p11 := popKey p10.2 "meta_sw"
  let p12 := popKey p11.2 "meta_sh"
  let p13 := popKey p12.2 "meta_dpr"
  let p14 := popKey p13.2 "meta_client_ts"
  let p15 := popKey p14.2 "utm_source"
  let p16 := popKey p15.2 "utm_medium"
  let p17 := popKey p16.2 "utm_campaign"
  let p18 := popKey p17.2 "utm_term"
  let p19 := popKey p18.2 "utm_content"
  { user_external_id := p1.1
    user_email := p2.1
    user_name := p3.1
    url := p4.1
    page_title := p5.1
    referrer := p6.1
    language := p7.1
    tz_offset_min := p8.1
    viewport := if p9.1.isSome || p10.1.isSome then some (p9.1, p10.1) else none
    screen := if p11.1.isSome || p12.1.isSome then some (p11.1, p12.1, p13.1) else none
    client_ts_str := p14.1
    utm_source := p15.1
    utm_medium := p16.1
    utm_campaign := p17.1
    utm_term := p18.1
    utm_content := p19.1
    residual := p19.2 }

/-- The inputs the session block of EventSerializer.create works from. -/
structure SessionInputs where
  session_id : String
  client_id : Option String := none
  site_key : String
  ua : Option String := none
  ip : Option String := none
  user_external_id : Option String := none
  user_email : Option String := none
  user_name : Option String := none
deriving DecidableEq

/-- The assembly of session inputs from request context and payload
(serializers.py lines 126-131 plus the identity pops). -/
def sessionInputsOf (ctx : ReqCtx) (p : Payload) : SessionInputs :=
  let n := normalizeEventData p.event_data
  { session_id := p.session_id
    client_id := p.client_id
    site_key := p.site_key
    ua := ctx.http_user_agent
    ip := client_ip ctx
    user_external_id := n.user_external_id
    user_email := n.user_email
    user_name := n.user_name }

/-- Error outcomes of EventSerializer.create that escape to the caller.
fieldError models the exception raised by the create branch of
Session.objects.get_or_create over invalid defaults keys (FieldError on
current Django versions, TypeError on older ones — same control flow);
attributeError models reading a missing identity attribute on a loaded
Session instance (serializers.py lines 154-158). -/
inductive CreateErr
  | valueError
  | fieldError
  | attributeError
  | multipleObjectsReturned
  | integrityError
deriving DecidableEq

/-- One fill-missing-only update step (the pattern
if value and not session.field: session.field = value; changed = True). -/
def fillStep (cur incoming : Option String) : Option String × Bool :=
  if truthy incoming ∧ ¬ truthy cur = true then (incoming, true) else (cur, false)

/-- The four merge steps of lines 149-153, the ones whose fields actually
exist on the Session model (client_id, site_key, user_agent, ip_address).
In the source they run in sequence; each condition reads only the field its
own step writes and no two steps write the same field, so they are modelled
simultaneously, with changed the disjunction of the per-step flags.  The
identity steps of lines 154-158 are not field updates: they read attributes
the model does not define and are handled in touchSession. -/
def mergeSession (s : Session) (i : SessionInputs) : Session × Bool :=
  let r1 := fillStep s.client_id i.client_id
  let r2 := fillStep s.site_key (some i.site_key)
  let r3 := fillStep s.user_agent i.ua
  let r4 := fillStep s.ip_address i.ip
  ({ s with
      client_id := r1.1
      site_key := r2.1
      user_agent := r3.1
      ip_address := r4.1 },
   r1.2 || r2.2 || r3.2 || r4.2)

/-- Model of session.save(): the row with the session's key is replaced, and
the auto_now field last_seen is set to the current time. -/
def saveSession (db : DB) (s : Session) (t : Nat) : DB :=
  { db with
    sessions := db.sessions.map
      (fun x => if x.session_id = s.session_id then { s with last_seen := t } else x) }

/-- The whole session block (serializers.py lines 133-160) against the real
Session model of models.py lines 18-27.  When no row matches the session_id,
the create branch of Session.objects.get_or_create raises before inserting
anything: the defaults dict carries user_external_id, user_email and
user_name, which are not fields of Session (FieldError from
_extract_model_params on current Django, TypeError from Model.init on older
ones; both modelled as fieldError).  When a row is found, the four real
merge steps of lines 149-153 run in memory, and then lines 154-158 read
session.user_external_id / session.user_email / session.user_name: if any
of the three incoming identity values is truthy, the attribute read is
reached and raises AttributeError, before the save of line 160 — so the
store is unchanged.  Only with all three identity values falsy does the
block complete, saving (and auto_now-bumping last_seen) exactly when some
merged field changed. -/
def touchSession (db : DB) (t : Nat) (i : SessionInputs) : Except CreateErr (DB × Session) :=
  match db.sessions.find? (fun s => s.session_id = i.session_id) with
  | none => .error .fieldError
  | some s =>
    let m := mergeSession s i
    if truthy i.user_external_id || truthy i.user_email || truthy i.user_name then
      .error .attributeError
    else if m.2 then .ok (saveSession db m.1 t, { m.1 with last_seen := t })
    else .ok (db, s)

/-- The lead-hint bag after cleaning (line 163: blank and missing values are
dropped, so each present field is a nonempty string). -/
structure LeadHints where
  first_name : Option String := none
  last_name : Option String := none
  email : Option String := none
  phone : Option String := none
  property_address : Option String := none
deriving DecidableEq

/-- Keep an optional string only when truthy. -/
def keepTruthy (o : Option String) : Option String := if truthy o then o else none

/-- cleaned_lead_data of line 163. -/
def cleanedHints (p : Payload) : LeadHints :=
  { first_name := keepTruthy p.first_name
    last_name := keepTruthy p.last_name
    email := keepTruthy p.email
    phone := keepTruthy p.phone
    property_address := keepTruthy p.property_address }

/-- The cleaned dict is nonempty. -/
def hintsPresent (c : LeadHints) : Bool :=
  c.first_name.isSome || c.last_name.isSome || c.email.isSome ||
  c.phone.isSome || c.property_address.isSome

/-- One disjunct of the Q filter built in lines 166-170. -/
inductive LeadCond
  | emailI (e : String)
  | phoneE (p : String)
  | addressI (a : String)
  | nameI (f l : String)
deriving DecidableEq

/-- Case-insensitive match of an optional stored column against a value
(Django iexact; a NULL column never matches). -/
def iexact : Option String → String → Bool
  | some s, v => lowerStr s = lowerStr v
  | none, _ => false

/-- Row satisfaction for one disjunct. -/
def condHolds (l : Lead) : LeadCond → Bool
  | .emailI e => iexact l.email e
  | .phoneE ph => l.phone = some ph
  | .addressI a => iexact l.property_address a
  | .nameI f ln => iexact l.first_name f && iexact l.last_name ln

/-- The Q filter of lines 166-170: email iexact, phone exact, and then the
property_address disjunct, with the first+last name disjunct only when no
address hint is present (the elif). -/
def leadConds (c : LeadHints) : List LeadCond :=
  (match c.email with | some e => [LeadCond.emailI e] | none => []) ++
  (match c.phone with | some ph => [LeadCond.phoneE ph] | none => []) ++
  (match c.property_address with
   | some a => [LeadCond.addressI a]
   | none =>
     match c.first_name, c.last_name with
     | some f, some ln => [LeadCond.nameI f ln]
     | _, _ => [])

/-- A row satisfies the disjunctive filter. -/
def leadPred (conds : List LeadCond) (l : Lead) : Bool := conds.any (condHolds l)

/-- The setattr loop of lines 175-176: every supplied (truthy) hint overwrites
the matched lead's field; the others are untouched. -/
def applyHints (l : Lead) (c : LeadHints) : Lead :=
  { l with
    first_name := ovr c.first_name l.first_name
    last_name := ovr c.last_name l.last_name
    email := ovr c.email l.email
    phone := ovr c.phone l.phone
    property_address := ovr c.property_address l.property_address }

/-- Model of lead.save(): replace the row with the lead's primary key. -/
def saveLead (db : DB) (l : Lead) : DB :=
  { db with leads := db.leads.map (fun x => if x.id = l.id then l else x) }

/-- Lead.objects.create(**cleaned_lead_data): only the supplied fields are
set, the auto primary key and created_at are assigned. -/
def newLeadFrom (c : LeadHints) (id t : Nat) : Lead :=
  { id := id
    first_name := c.first_name
    last_name := c.last_name
    email := c.email
    phone := c.phone
    property_address := c.property_address
    created_at := t }

/-- The lead block of lines 162-179: with a nonempty cleaned hint bag and a
nonempty filter, Lead.objects.get(lead_filter) either returns the single
matching row (which is then overwritten with the supplied hints and saved),
raises DoesNotExist (caught: a new Lead is created), or raises
MultipleObjectsReturned (uncaught: it propagates and fails the event). -/
def resolveLead (db : DB) (t : Nat) (c : LeadHints) :
    Except CreateErr (DB × Option Nat) :=
  if hintsPresent c then
    let conds := leadConds c
    if conds.isEmpty then .ok (db, none)
    else
      match db.leads.filter (leadPred conds) with
      | [l] => .ok (saveLead db (applyHints l c), some l.id)
      | [] =>
        let nl := newLeadFrom c db.nextLeadId t
        .ok ({ db with leads := db.leads ++ [nl], nextLeadId := db.nextLeadId + 1 }, some nl.id)
      | _ => .error .multipleObjectsReturned
  else .ok (db, none)

instance : DecidableEq (Except CreateErr Nat) := fun a b =>
  match a, b with
  | .ok x, .ok y => if h : x = y then .isTrue (by rw [h]) else .isFalse (by simp [h])
  | .error x, .error y => if h : x = y then .isTrue (by rw [h]) else .isFalse (by simp [h])
  | .ok _, .error _ => .isFalse (by simp)
  | .error _, .ok _ => .isFalse (by simp)

/-- Result of EventSerializer.create: the store after all writes that
committed, and either the created event's primary key or the exception that
escaped.  Session and lead writes that happened before an exception remain
committed (nothing runs in a transaction). -/
structure CreateOut where
  db : DB
  res : Except CreateErr Nat
deriving DecidableEq

/-- The Event row assembled by Event.objects.create (serializers.py lines
181-202) from the normalized payload, the parsed client timestamp, the
resolved lead reference and the fresh primary key.  The call does not pass
event_type (popped at line 76, never forwarded), so the stored event_type
is the CharField default, the empty string — the structure default. -/
def builtEvent (p : Payload) (cts : Option String) (t : Nat) (pk : Nat)
    (leadId : Option Nat) : Event :=
  let n := normalizeEventData p.event_data
  { pk := pk
    event_id := p.event_id
    schema_version := p.schema_version
    site_key := p.site_key
    session_id := p.session_id
    lead := leadId
    url := n.url
    page_title := n.page_title
    referrer := n.referrer
    language := n.language
    tz_offset_min := n.tz_offset_min
    viewport := n.viewport
    screen := n.screen
    utm_source := n.utm_source
    utm_medium := n.utm_medium
    utm_campaign := n.utm_campaign
    utm_term := n.utm_term
    utm_content := n.utm_content
    event_data := n.residual
    client_ts := cts
    created_at := t }

/-- The store after the successful Event insert: the new row appended and the
auto-increment key advanced. -/
def okDB (p : Payload) (cts : Option String) (t : Nat) (db2 : DB) (lid : Option Nat) : DB :=
  { db2 with
    events := db2.events ++ [builtEvent p cts t db2.nextEventPk lid]
    nextEventPk := db2.nextEventPk + 1 }

/-- EventSerializer.create (serializers.py lines 70-203): normalize the
payload (raising ValueError on an unparseable client timestamp), run the
session block — which raises FieldError for a previously unseen session_id
and AttributeError for a truthy identity hint, in both cases before any
write — then resolve and merge the lead, and finally insert the Event row,
whose unique event_id constraint turns a duplicate into an IntegrityError. -/
def EventSerializer_create (db : DB) (t : Nat) (ctx : ReqCtx) (p : Payload) : CreateOut :=
  match parse_client_ts (normalizeEventData p.event_data).client_ts_str with
  | .error _ => { db := db, res := .error .valueError }
  | .ok cts =>
    match touchSession db t (sessionInputsOf ctx p) with
    | .error e => { db := db, res := .error e }
    | .ok ts =>
      match resolveLead ts.1 t (cleanedHints p) with
      | .error e => { db := ts.1, res := .error e }
      | .ok (db2, leadId) =>
        if db2.events.any (fun e => e.event_id = p.event_id) then
          { db := db2, res := .error .integrityError }
        else
          { db := okDB p cts t db2 leadId, res := .ok db2.nextEventPk }

/-- The client timestamp of the payload parses (no ValueError is raised at
lines 105-106). -/
def tsParses (p : Payload) : Bool :=
  match parse_client_ts (normalizeEventData p.event_data).client_ts_str with
  | .ok _ => true
  | .error _ => false

/-! Shape lemmas: the possible outcomes of EventSerializer_create. -/

theorem create_eq_err_ts (db : DB) (t : Nat) (ctx : ReqCtx) (p : Payload) {e : Unit}
    (hp : parse_client_ts (normalizeEventData p.event_data).client_ts_str = .error e) :
    EventSerializer_create db t ctx p = { db := db, res := .error .valueError } := by
  unfold EventSerializer_create
  rw [hp]

theorem create_eq_err_sess (db : DB) (t : Nat) (ctx : ReqCtx) (p : Payload)
    {cts : Option String} {e : CreateErr}
    (hp : parse_client_ts (normalizeEventData p.event_data).client_ts_str = .ok cts)
    (htouch : touchSession db t (sessionInputsOf ctx p) = .error e) :
    EventSerializer_create db t ctx p = { db := db, res := .error e } := by
  unfold EventSerializer_create
  simp only [hp, htouch]

theorem create_eq_err_lead (db : DB) (t : Nat) (ctx : ReqCtx) (p : Payload)
    {cts : Option String} {ts : DB × Session} {e : CreateErr}
    (hp : parse_client_ts (normalizeEventData p.event_data).client_ts_str = .ok cts)
    (htouch : touchSession db t (sessionInputsOf ctx p) = .ok ts)
    (hr : resolveLead ts.1 t (cleanedHints p) = .error e) :
    EventSerializer_create db t ctx p = { db := ts.1, res := .error e } := by
  unfold EventSerializer_create
  simp only [hp, htouch, hr]

theorem create_eq_dup (db : DB) (t : Nat) (ctx : ReqCtx) (p : Payload)
    {cts : Option String} {ts : DB × Session} {db2 : DB} {lid : Option Nat}
    (hp : parse_client_ts (normalizeEventData p.event_data).client_ts_str = .ok cts)
    (htouch : touchSession db t (sessionInputsOf ctx p) = .ok ts)
    (hr : resolveLead ts.1 t (cleanedHints p) = .ok (db2, lid))
    (hdup : db2.events.any (fun e => e.event_id = p.event_id) = true) :
    EventSerializer_create db t ctx p = { db := db2, res := .error .integrityError } := by
  unfold EventSerializer_create
  simp only [hp, htouch, hr, hdup, eq_self_iff_true, if_true]

theorem create_eq_ok (db : DB) (t : Nat) (ctx : ReqCtx) (p : Payload)
    {cts : Option String} {ts : DB × Session} {db2 : DB} {lid : Option Nat}
    (hp : parse_client_ts (normalizeEventData p.event_data).client_ts_str = .ok cts)
    (htouch : touchSession db t (sessionInputsOf ctx p) = .ok ts)
    (hr : resolveLead ts.1 t (cleanedHints p) = .ok (db2, lid))
    (hdup : db2.events.any (fun e => e.event_id = p.event_id) = false) :
    EventSerializer_create db t ctx p
      = { db := okDB p cts t db2 lid, res := .ok db2.nextEventPk } := by
  unfold EventSerializer_create
  simp only [hp, htouch, hr, hdup, Bool.false_eq_true, if_false]

/-- The event_data value of a raw payload before validation: absent, present
but not a key/value object, or an object. -/
inductive RawEventData
  | notMap
  | map (entries : List (String × String))
deriving DecidableEq

/-- A raw inbound payload as EventSerializer(data=...) receives it.  A field
is none when it is missing from the payload (for v, also when it is not an
integer; the two are rejected identically). -/
structure RawPayload where
  v : Option Int := none
  site_key : Option String := none
  event_id : Option String := none
  event_type : Option String := none
  session_id : Option String := none
  client_id : Option String := none
  event_data : Option RawEventData := none
  first_name : Option String := none
  last_name : Option String := none
  email : Option String := none
  phone : Option String := none
  property_address : Option String := none
deriving DecidableEq

/-- Model of the uuid.UUID constructor behind serializers.UUIDField: dashes
are removed and exactly 32 hexadecimal digits must remain. -/
def uuidOk (s : String) : Bool :=
  let l := s.data.filter (fun c => c ≠ '-')
  decide (l.length = 32) &&
  l.all (fun c => c.isDigit || ('a' ≤ c && c ≤ 'f') || ('A' ≤ c && c ≤ 'F'))

/-- Split a character list at every occurrence of the given separator. -/
def splitOnChar (c : Char) : List Char → List (List Char)
  | [] => [[]]
  | x :: xs =>
    let r := splitOnChar c xs
    if x = c then [] :: r
    else
      match r with
      | [] => [[x]]
      | h :: rest => (x :: h) :: rest

/-- Model of EmailField validation sufficient for the inputs considered here:
one at-sign with a nonempty local part and a dotted domain of nonempty
labels. -/
def emailOk (s : String) : Bool :=
  match splitOnChar '@' s.data with
  | [loc, domain] =>
    !loc.isEmpty && !domain.isEmpty &&
    decide (2 ≤ (splitOnChar '.' domain).length) &&
    (splitOnChar '.' domain).all (fun part => !part.isEmpty)
  | _ => false

/-- The three valid event_type choices (models.Event.EVENT_TYPE_CHOICES). -/
def choiceOk (s : String) : Bool :=
  s = "page_load" || s = "form_submission" || s = "custom_event"

/-- Validation of an optional CharField: fine when absent; a present value
must respect allow_blank and the max length. -/
def okOptChar (o : Option String) (maxLen : Nat) (allowBlank : Bool) : Bool :=
  match o with
  | none => true
  | some s => (allowBlank || !s.isEmpty) && decide (s.length ≤ maxLen)

/-- The field-level errors of EventSerializer.is_valid, as the list of failing
field names: required v, site_key, event_id (a UUID), event_type (one of the
three choices) and session_id; optional client_id (allow_null, not blank),
event_data (validate_event_data: must be an object when present), the
lead-hint CharFields with allow_blank and their max lengths, and EmailField
email. -/
def validationErrors (r : RawPayload) : List String :=
  (if r.v.isSome then [] else ["v"]) ++
  (match r.site_key with
   | some s => if !s.isEmpty && decide (s.length ≤ 255) then [] else ["site_key"]
   | none => ["site_key"]) ++
  (match r.event_id with
   | some s => if uuidOk s then [] else ["event_id"]
   | none => ["event_id"]) ++
  (match r.event_type with
   | some s => if choiceOk s then [] else ["event_type"]
   | none => ["event_type"]) ++
  (match r.session_id with
   | some s => if !s.isEmpty && decide (s.length ≤ 255) then [] else ["session_id"]
   | none => ["session_id"]) ++
  (if okOptChar r.client_id 255 false then [] else ["client_id"]) ++
  (match r.event_data with
   | some .notMap => ["event_data"]
   | _ => []) ++
  (if okOptChar r.first_name 255 true then [] else ["first_name"]) ++
  (if okOptChar r.last_name 255 true then [] else ["last_name"]) ++
  (match r.email with
   | some s => if s.isEmpty || emailOk s then [] else ["email"]
   | none => []) ++
  (if okOptChar r.phone 20 true then [] else ["phone"]) ++
  (if okOptChar r.property_address 255 true then [] else ["property_address"])

/-- Decode an event_type string already known to be one of the choices. -/
def eventTypeOf (s : String) : EventType :=
  if s = "form_submission" then .form_submission
  else if s = "custom_event" then .custom_event
  else .page_load

/-- The validated_data handed to create once is_valid returned True.  The
defaults are irrelevant junk: every use is guarded by validationErrors being
empty, which forces the required fields to be present. -/
def toPayload (r : RawPayload) : Payload :=
  { schema_version := r.v.getD 0
    site_key := r.site_key.getD ""
    event_id := r.event_id.getD ""
    event_type := eventTypeOf (r.event_type.getD "page_load")
    session_id := r.session_id.getD ""
    client_id := r.client_id
    event_data := match r.event_data with | some (.map m) => m | _ => []
    first_name := r.first_name
    last_name := r.last_name
    email := r.email
    phone := r.phone
    property_address := r.property_address }

/-- A GeoIP city lookup result as assembled in tasks.py lines 78-84. -/
structure GeoData where
  country : Option String := none
  city : Option String := none
  latitude : Option Int := none
  longitude : Option Int := none
deriving DecidableEq

/-- External-library behaviour injected into the task: the module-level
GEOIP_READER (none when the geoip2 import or database load failed; the
function models Reader.city, its none modelling a raised lookup error),
json.dumps for the geo_data dict (second argument: the source ip entry), and
json.loads restricted to string-valued objects (none modelling
JSONDecodeError). -/
structure Env where
  geoReader : Option (String → Option GeoData)
  jsonDumps : GeoData → String → String
  jsonLoads : String → Option (List (String × String))

/-- A committed write performed by the enrichment task. -/
inductive WriteOp
  | leadSave (id : Nat)
  | sessionSave (session_id : String)
deriving DecidableEq

/-- tasks.canonicalize_address: the placeholder returns the address unchanged. -/
def canonicalize_address (a : String) : String := a

/-- tasks.extract_ip_from_device_info: when device_info is truthy and contains
the substring ip_address, json-decode it and return its ip_address entry
(JSONDecodeError falls through); in every other case the loopback fallback. -/
def extract_ip_from_device_info (env : Env) (device_info : Option String) : Option String :=
  match device_info with
  | some s =>
    if !s.isEmpty && strContainsSub s "ip_address" then
      match env.jsonLoads s with
      | some obj => lookupKey obj "ip_address"
      | none => some "127.0.0.1"
    else some "127.0.0.1"
  | none => some "127.0.0.1"

/-- tasks.process_event_data (lines 46-93): load the event (silently done when
missing); when it has a lead with a truthy property_address, re-canonicalize
and save that lead — the guarding attribute is set only on the in-memory
object, never persisted, so a freshly loaded lead is always canonicalized
again; when the event's session lacks location_data and the reader is
available, look up the extracted client ip and store the rendered geo data
on the session (lookup failures are swallowed).  The session save passes
update_fields, so only location_data changes.  Returns the store and the
list of row writes performed. -/
def process_event_data (env : Env) (db : DB) (eventPk : Nat) : DB × List WriteOp :=
  match db.events.find? (fun e => e.pk = eventPk) with
  | none => (db, [])
  | some ev =>
    let step1 : DB × List WriteOp :=
      match ev.lead.bind (fun lid => db.leads.find? (fun l => l.id = lid)) with
      | some lead =>
        if truthy lead.property_address then
          (saveLead db { lead with property_address := lead.property_address.map canonicalize_address },
           [WriteOp.leadSave lead.id])
        else (db, [])
      | none => (db, [])
    let db1 := step1.1
    match db1.sessions.find? (fun s => s.session_id = ev.session_id), env.geoReader with
    | some s, some rd =>
      if !truthy s.location_data then
        match extract_ip_from_device_info env s.device_info with
        | some ip =>
          if !ip.isEmpty then
            match rd ip with
            | some geo =>
              let s' := { s with location_data := some (env.jsonDumps geo ip) }
              let f := fun x => if x.session_id = s.session_id then s' else x
              ({ db1 with sessions := db1.sessions.map f },
               step1.2 ++ [WriteOp.sessionSave s.session_id])
            | none => (db1, step1.2)
          else (db1, step1.2)
        | none => (db1, step1.2)
      else (db1, step1.2)
    | _, _ => (db1, step1.2)

/-- Responses of CollectView.post. -/
inductive Resp
  | noContent204
  | badRequest400 (errorFields : List String)
  | serverError500
deriving DecidableEq

/-- The post-loop synchronous enrichment calls of views.py lines 72-73. -/
def runTasks (env : Env) (db : DB) (pks : List Nat) : DB :=
  pks.foldl (fun d pk => (process_event_data env d pk).1) db

/-- The per-item loop of CollectView.post (lines 62-75): items are validated
and saved in order; the first invalid item returns its errors as a 400
immediately (items already saved stay saved, their enrichment is not run);
an exception escaping ser.save() aborts with a server error; when all items
saved, enrichment runs for each created pk and 204 is returned. -/
def collectLoop (env : Env) (t : Nat) (ctx : ReqCtx) :
    DB → List Nat → List RawPayload → DB × Resp
  | db, pks, [] => (runTasks env db pks, .noContent204)
  | db, pks, r :: rest =>
    let errs := validationErrors r
    if errs.isEmpty then
      let out := EventSerializer_create db t ctx (toPayload r)
      match out.res with
      | .ok pk => collectLoop env t ctx out.db (pks ++ [pk]) rest
      | .error _ => (out.db, .serverError500)
    else (db, .badRequest400 errs)

/-- CollectView.post on an already-decoded batch (a single object is wrapped
into a one-element batch by line 60). -/
def CollectView_post (env : Env) (db : DB) (t : Nat) (ctx : ReqCtx)
    (payloads : List RawPayload) : DB × Resp :=
  collectLoop env t ctx db [] payloads

/-- Responses of the noscript GIF endpoint: the pixel, or the server error
produced when ser.save() raises. -/
inductive GifResp
  | gif
  | serverError500
deriving DecidableEq

/-- Query-parameter lookup (request.GET). -/
def qlookup (params : List (String × String)) (key : String) : Option String :=
  (params.find? (fun e => e.1 = key)).map (fun e => e.2)

/-- Model of the IntegerField parse applied to a query-string value. -/
def parseIntS (s : String) : Option Int :=
  match s.data with
  | [] => none
  | '-' :: rest =>
    if decide (rest ≠ []) && allDigits rest then some (-(Int.ofNat (natOfDigits rest))) else none
  | l => if allDigits l then some (Int.ofNat (natOfDigits l)) else none

/-- The payload assembled by collect_gif_view (views.py lines 82-88) from the
query parameters: defaults for event_type, v and site_key only when absent,
then the session_id, client_id and event_id unconditionally replaced by the
server-generated values sid, cid and eid.  A query string cannot carry an
object, so a supplied event_data value is never a key/value map. -/
def gifRaw (params : List (String × String)) (sid cid eid : String) : RawPayload :=
  { v := match qlookup params "v" with | some s => parseIntS s | none => some 0
    site_key := some ((qlookup params "site_key").getD "noscript_fallback")
    event_id := some eid
    event_type := some ((qlookup params "event_type").getD "page_load")
    session_id := some sid
    client_id := some cid
    event_data := (qlookup params "event_data").map (fun _ => RawEventData.notMap)
    first_name := qlookup params "first_name"
    last_name := qlookup params "last_name"
    email := qlookup params "email"
    phone := qlookup params "phone"
    property_address := qlookup params "property_address" }

/-- collect_gif_view (views.py lines 77-95): assemble the payload, and when it
validates, save it; process_event_data.delay only enqueues the asynchronous
task, so it changes no state here.  The GIF is returned whether or not
validation passed; an exception escaping ser.save() becomes a server error. -/
def collect_gif_view (db : DB) (t : Nat) (ctx : ReqCtx)
    (params : List (String × String)) (sid cid eid : String) : DB × GifResp :=
  let raw := gifRaw params sid cid eid
  if (validationErrors raw).isEmpty then
    let out := EventSerializer_create db t ctx (toPayload raw)
    match out.res with
    | .ok _ => (out.db, .gif)
    | .error _ => (out.db, .serverError500)
  else (db, .gif)

/-! Structural lemmas about the pipeline, shared by the claim theorems. -/

theorem mergeSession_session_id (s : Session) (i : SessionInputs) :
    ((mergeSession s i).1).session_id = s.session_id := rfl

theorem mergeSession_first_seen (s : Session) (i : SessionInputs) :
    ((mergeSession s i).1).first_seen = s.first_seen := rfl

theorem touchSession_none (db : DB) (t : Nat) (i : SessionInputs)
    (hfind : db.sessions.find? (fun s => s.session_id = i.session_id) = none) :
    touchSession db t i = .error .fieldError := by
  unfold touchSession
  rw [hfind]

theorem touchSession_identity_crash (db : DB) (t : Nat) (i : SessionInputs) (S : Session)
    (hfind : db.sessions.find? (fun s => s.session_id = i.session_id) = some S)
    (hid : (truthy i.user_external_id || truthy i.user_email || truthy i.user_name) = true) :
    touchSession db t i = .error .attributeError := by
  unfold touchSession
  rw [hfind]
  dsimp only
  rw [hid, if_pos rfl]

theorem touchSession_changed (db : DB) (t : Nat) (i : SessionInputs) (S : Session)
    (hfind : db.sessions.find? (fun s => s.session_id = i.session_id) = some S)
    (hid : (truthy i.user_external_id || truthy i.user_email || truthy i.user_name) = false)
    (hch : (mergeSession S i).2 = true) :
    touchSession db t i
      = .ok (saveSession db (mergeSession S i).1 t, { (mergeSession S i).1 with last_seen := t }) := by
  unfold touchSession
  rw [hfind]
  dsimp only
  rw [hid, if_neg Bool.false_ne_true, if_pos hch]

theorem touchSession_unchanged (db : DB) (t : Nat) (i : SessionInputs) (S : Session)
    (hfind : db.sessions.find? (fun s => s.session_id = i.session_id) = some S)
    (hid : (truthy i.user_external_id || truthy i.user_email || truthy i.user_name) = false)
    (hch : (mergeSession S i).2 = false) :
    touchSession db t i = .ok (db, S) := by
  unfold touchSession
  rw [hfind]
  dsimp only
  rw [hid, if_neg Bool.false_ne_true, if_neg]
  intro hh
  rw [hch] at hh
  exact Bool.false_ne_true hh

theorem touchSession_ok_leads {db : DB} {t : Nat} {i : SessionInputs} {ts : DB × Session}
    (h : touchSession db t i = .ok ts) : ts.1.leads = db.leads := by
  unfold touchSession at h
  cases hfind : db.sessions.find? (fun s => s.session_id = i.session_id) with
  | none => rw [hfind] at h; cases h
  | some S =>
    rw [hfind] at h
    dsimp only at h
    split at h
    · cases h
    · split at h
      · cases h; rfl
      · cases h; rfl

theorem touchSession_ok_events {db : DB} {t : Nat} {i : SessionInputs} {ts : DB × Session}
    (h : touchSession db t i = .ok ts) : ts.1.events = db.events := by
  unfold touchSession at h
  cases hfind : db.sessions.find? (fun s => s.session_id = i.session_id) with
  | none => rw [hfind] at h; cases h
  | some S =>
    rw [hfind] at h
    dsimp only at h
    split at h
    · cases h
    · split at h
      · cases h; rfl
      · cases h; rfl

theorem touchSession_ok_of_found (db : DB) (t : Nat) (i : SessionInputs) (S : Session)
    (hfind : db.sessions.find? (fun s => s.session_id = i.session_id) = some S)
    (hid : (truthy i.user_external_id || truthy i.user_email || truthy i.user_name) = false) :
    ∃ ts, touchSession db t i = .ok ts ∧ ts.1.leads = db.leads ∧ ts.1.events = db.events := by
  cases hch : (mergeSession S i).2 with
  | true =>
    exact ⟨(saveSession db (mergeSession S i).1 t, { (mergeSession S i).1 with last_seen := t }),
      touchSession_changed db t i S hfind hid hch, rfl, rfl⟩
  | false =>
    exact ⟨(db, S), touchSession_unchanged db t i S hfind hid hch, rfl, rfl⟩

theorem resolveLead_preserves {db : DB} {t : Nat} {c : LeadHints} {db2 : DB} {lid : Option Nat}
    (h : resolveLead db t c = .ok (db2, lid)) :
    db2.events = db.events ∧ db2.sessions = db.sessions := by
  unfold resolveLead at h
  dsimp only at h
  split at h
  · split at h
    · simp only [Except.ok.injEq, Prod.mk.injEq] at h
      rw [← h.1]
      exact ⟨rfl, rfl⟩
    · split at h
      · simp only [Except.ok.injEq, Prod.mk.injEq] at h
        rw [← h.1]
        exact ⟨rfl, rfl⟩
      · simp only [Except.ok.injEq, Prod.mk.injEq] at h
        rw [← h.1]
        exact ⟨rfl, rfl⟩
      · exact absurd h (by simp)
  · simp only [Except.ok.injEq, Prod.mk.injEq] at h
    rw [← h.1]
    exact ⟨rfl, rfl⟩

theorem two_le_filter_length {α : Type} (l : List α) (q : α → Bool) (a b : α)
    (ha : a ∈ l) (hb : b ∈ l) (hab : a ≠ b) (hqa : q a = true) (hqb : q b = true) :
    2 ≤ (l.filter q).length := by
  have ha' : a ∈ l.filter q := List.mem_filter.mpr ⟨ha, hqa⟩
  have hb' : b ∈ l.filter q := List.mem_filter.mpr ⟨hb, hqb⟩
  rcases hfl : l.filter q with _ | ⟨x, _ | ⟨y, tl⟩⟩
  · rw [hfl] at ha'; simp at ha'
  · rw [hfl] at ha' hb'
    simp at ha' hb'
    exact absurd (ha'.trans hb'.symm) hab
  · simp

theorem leadConds_nil (c : LeadHints) (h : hintsPresent c = false) : leadConds c = [] := by
  cases hfn : c.first_name <;> cases hln : c.last_name <;> cases he : c.email <;>
    cases hph : c.phone <;> cases hpa : c.property_address <;>
    simp_all [hintsPresent, leadConds]

theorem hintsPresent_of_conds {c : LeadHints} (h : leadConds c ≠ []) :
    hintsPresent c = true := by
  by_contra hfalse
  exact h (leadConds_nil c (Bool.eq_false_iff.mpr (fun hh => hfalse hh)))

theorem conds_ne_nil_of_pred {conds : List LeadCond} {l : Lead}
    (h : leadPred conds l = true) : conds ≠ [] := by
  intro he
  subst he
  simp [leadPred] at h

theorem create_db_sessions (db : DB) (t : Nat) (ctx : ReqCtx) (p : Payload)
    {cts : Option String} {ts : DB × Session}
    (hp : parse_client_ts (normalizeEventData p.event_data).client_ts_str = .ok cts)
    (htouch : touchSession db t (sessionInputsOf ctx p) = .ok ts) :
    (EventSerializer_create db t ctx p).db.sessions = ts.1.sessions := by
  unfold EventSerializer_create
  simp only [hp, htouch]
  cases hr : resolveLead ts.1 t (cleanedHints p) with
  | error e => simp [hr]
  | ok pr =>
    obtain ⟨db2, lid⟩ := pr
    have hpre := resolveLead_preserves hr
    simp only [hr]
    split <;> simpa using hpre.2

theorem create_db_leads (db : DB) (t : Nat) (ctx : ReqCtx) (p : Payload)
    {cts : Option String} {ts : DB × Session} {db2 : DB} {lid : Option Nat}
    (hp : parse_client_ts (normalizeEventData p.event_data).client_ts_str = .ok cts)
    (htouch : touchSession db t (sessionInputsOf ctx p) = .ok ts)
    (hr : resolveLead ts.1 t (cleanedHints p) = .ok (db2, lid)) :
    (EventSerializer_create db t ctx p).db.leads = db2.leads := by
  cases hdup : db2.events.any (fun e => e.event_id = p.event_id) with
  | true => rw [create_eq_dup db t ctx p hp htouch hr hdup]
  | false =>
    rw [create_eq_ok db t ctx p hp htouch hr hdup]
    rfl

theorem tsParses_ok {p : Payload} (hts : tsParses p = true) :
    ∃ cts, parse_client_ts (normalizeEventData p.event_data).client_ts_str = .ok cts := by
  unfold tsParses at hts
  cases h : parse_client_ts (normalizeEventData p.event_data).client_ts_str with
  | ok c => exact ⟨c, rfl⟩
  | error e => rw [h] at hts; simp at hts

theorem resolveLead_ambiguous (db : DB) (t : Nat) (c : LeadHints)
    (h2 : 2 ≤ (db.leads.filter (leadPred (leadConds c))).length) :
    resolveLead db t c = .error .multipleObjectsReturned := by
  have hfilter_ne : db.leads.filter (leadPred (leadConds c)) ≠ [] := by
    intro h
    rw [h] at h2
    simp at h2
  have hcne : leadConds c ≠ [] := by
    rcases hfl : db.leads.filter (leadPred (leadConds c)) with _ | ⟨x, xs⟩
    · exact absurd hfl hfilter_ne
    · have hx : x ∈ db.leads.filter (leadPred (leadConds c)) := by rw [hfl]; simp
      exact conds_ne_nil_of_pred (List.mem_filter.mp hx).2
  have hpres : hintsPresent c = true := hintsPresent_of_conds hcne
  have hie : (leadConds c).isEmpty = false := by
    rcases hlc : leadConds c with _ | _
    · exact absurd hlc hcne
    · rfl
  rcases hfl : db.leads.filter (leadPred (leadConds c)) with _ | ⟨x, _ | ⟨y, tl⟩⟩
  · exact absurd hfl hfilter_ne
  · rw [hfl] at h2
    simp at h2
  · unfold resolveLead
    rw [if_pos hpres]
    simp only [hie, Bool.false_eq_true, if_false, hfl]

theorem resolveLead_single (db : DB) (t : Nat) (c : LeadHints) (A : Lead)
    (hone : db.leads.filter (leadPred (leadConds c)) = [A]) :
    resolveLead db t c = .ok (saveLead db (applyHints A c), some A.id) := by
  have hpred : leadPred (leadConds c) A = true := by
    have hx : A ∈ db.leads.filter (leadPred (leadConds c)) := by rw [hone]; simp
    exact (List.mem_filter.mp hx).2
  have hcne : leadConds c ≠ [] := conds_ne_nil_of_pred hpred
  have hpres : hintsPresent c = true := hintsPresent_of_conds hcne
  have hie : (leadConds c).isEmpty = false := by
    rcases hlc : leadConds c with _ | _
    · exact absurd hlc hcne
    · rfl
  unfold resolveLead
  rw [if_pos hpres]
  simp only [hie, Bool.false_eq_true, if_false, hone]

theorem find_save_session (l : List Session) (s : Session) (t : Nat) (sid : String)
    (hs : s.session_id = sid)
    (hsome : (l.find? (fun x => x.session_id = sid)).isSome = true) :
    ((l.map (fun x => if x.session_id = s.session_id then { s with last_seen := t } else x)).find?
        (fun x => x.session_id = sid)) = some { s with last_seen := t } := by
  induction l with
  | nil => simp at hsome
  | cons a rest ih =>
    by_cases ha : a.session_id = sid
    · have haz : a.session_id = s.session_id := by rw [ha, hs]
      simp [List.find?_cons, haz, hs]
    · have hns : ¬ a.session_id = s.session_id := by rw [hs]; exact ha
      have hsome' : (rest.find? (fun x => x.session_id = sid)).isSome = true := by
        simpa [List.find?_cons, ha] using hsome
      simpa [List.find?_cons, hns, ha] using ih hsome'

theorem collectLoop_cons_valid (env : Env) (t : Nat) (ctx : ReqCtx) (db : DB)
    (pks : List Nat) (r : RawPayload) (rest : List RawPayload) (pk : Nat)
    (hv : (validationErrors r).isEmpty = true)
    (hok : (EventSerializer_create db t ctx (toPayload r)).res = .ok pk) :
    collectLoop env t ctx db pks (r :: rest)
      = collectLoop env t ctx (EventSerializer_create db t ctx (toPayload r)).db
          (pks ++ [pk]) rest := by
  rw [collectLoop.eq_def]
  dsimp only
  rw [if_pos hv]
  rw [hok]

theorem collectLoop_cons_invalid (env : Env) (t : Nat) (ctx : ReqCtx) (db : DB)
    (pks : List Nat) (r : RawPayload) (rest : List RawPayload)
    (hv : (validationErrors r).isEmpty = false) :
    collectLoop env t ctx db pks (r :: rest) = (db, .badRequest400 (validationErrors r)) := by
  rw [collectLoop.eq_def]
  dsimp only
  rw [if_neg]
  intro hh
  rw [hv] at hh
  exact Bool.false_ne_true hh

/-! Concrete scenarios used by the counterexamples and witnesses. -/

/-- Request context used by the concrete scenarios. -/
def exCtx : ReqCtx := { remote_addr := some "1.2.3.4", http_user_agent := some "ua0" }

/-- An existing session row for session_id s1 (only the real model columns). -/
def exSess1 : Session := { session_id := "s1", site_key := some "k" }

/-- A persisted event whose event_id is about to be resubmitted. -/
def exEvent1 : Event :=
  { pk := 0, event_id := "aaaaaaaa-aaaa-aaaa-aaaa-aaaaaaaaaaaa", schema_version := 1,
    site_key := "k", session_id := "s0" }

/-- Store already holding exEvent1 and the session row the resubmission will
resolve to. -/
def exDb1 : DB := { sessions := [exSess1], events := [exEvent1], nextEventPk := 1 }

/-- A normalized payload resubmitting the same event_id against the existing
session s1, with no identity hints. -/
def exP1 : Payload :=
  { schema_version := 1, site_key := "k", event_id := "aaaaaaaa-aaaa-aaaa-aaaa-aaaaaaaaaaaa",
    event_type := .page_load, session_id := "s1" }

/-- C1 counterexample.  The claim says a resubmitted event_id completes
without an error distinguishable from success; on this store — whose session
row exists and whose payload carries no identity hints, so the insert is
actually reached — the second submission of the same event_id raises an
IntegrityError (the Event row count stays the same, but the caller sees the
exception). -/
theorem C1_counterexample :
    (EventSerializer_create exDb1 5 exCtx exP1).res = Except.error CreateErr.integrityError ∧
    (EventSerializer_create exDb1 5 exCtx exP1).db.events = exDb1.events := by
  exact ⟨rfl, rfl⟩

/-- C1 amended: submitting a payload whose event_id already identifies a
persisted Event row never creates a second row, and the operation always
raises an error instead of completing as success: an IntegrityError from the
unique constraint when the insert is reached, or one of the earlier
exceptions (ValueError, the session step's FieldError or AttributeError, or
MultipleObjectsReturned) — never a success. -/
theorem C1_theorem (db : DB) (t : Nat) (ctx : ReqCtx) (p : Payload)
    (hdup : db.events.any (fun e => e.event_id = p.event_id) = true) :
    (EventSerializer_create db t ctx p).db.events = db.events ∧
    ∃ err, (EventSerializer_create db t ctx p).res = Except.error err := by
  cases hp : parse_client_ts (normalizeEventData p.event_data).client_ts_str with
  | error e =>
    rw [create_eq_err_ts db t ctx p hp]
    exact ⟨rfl, CreateErr.valueError, rfl⟩
  | ok cts =>
    cases htouch : touchSession db t (sessionInputsOf ctx p) with
    | error e =>
      rw [create_eq_err_sess db t ctx p hp htouch]
      exact ⟨rfl, e, rfl⟩
    | ok ts =>
      cases hr : resolveLead ts.1 t (cleanedHints p) with
      | error e =>
        rw [create_eq_err_lead db t ctx p hp htouch hr]
        exact ⟨touchSession_ok_events htouch, e, rfl⟩
      | ok pr =>
        obtain ⟨db2, lid⟩ := pr
        have hev : db2.events = db.events :=
          (resolveLead_preserves hr).1.trans (touchSession_ok_events htouch)
        have hcond : db2.events.any (fun e => e.event_id = p.event_id) = true := by
          rw [hev]
          exact hdup
        rw [create_eq_dup db t ctx p hp htouch hr hcond]
        exact ⟨hev, CreateErr.integrityError, rfl⟩

/-- C1 witness: the amended theorem applied to the concrete resubmission. -/
theorem C1_witness :
    (exDb1.events.any (fun e => e.event_id = exP1.event_id) = true) ∧
    ((EventSerializer_create exDb1 5 exCtx exP1).db.events = exDb1.events ∧
     ∃ err, (EventSerializer_create exDb1 5 exCtx exP1).res = Except.error err) :=
  ⟨by decide, C1_theorem exDb1 5 exCtx exP1 (by decide)⟩

/-- A payload whose client timestamp is present but unparseable. -/
def exP7 : Payload :=
  { schema_version := 1, site_key := "k", event_id := "aaaaaaaa-aaaa-aaaa-aaaa-aaaaaaaaaaaa",
    event_type := .page_load, session_id := "s1",
    event_data := [("meta_client_ts", "not-a-date")] }

/-- C7 counterexample.  The claim says an unparseable client timestamp is
stored as null and signals no error; on an empty store the event with
meta_client_ts not-a-date fails with a ValueError and nothing is written. -/
theorem C7_counterexample :
    EventSerializer_create {} 5 exCtx exP7
      = { db := {}, res := Except.error CreateErr.valueError } := by
  exact rfl

/-- C7 amended: a present, nonempty client timestamp string that
datetime.fromisoformat rejects (after the Z replacement) raises a ValueError
that fails the whole event before any write; the field is not treated as
absent. -/
theorem C7_theorem (db : DB) (t : Nat) (ctx : ReqCtx) (p : Payload) (s : String)
    (h1 : (normalizeEventData p.event_data).client_ts_str = some s)
    (h2 : s.isEmpty = false)
    (h3 : pyFromIso (replaceZ s) = none) :
    EventSerializer_create db t ctx p = { db := db, res := Except.error CreateErr.valueError } := by
  unfold EventSerializer_create
  simp [parse_client_ts, h1, h2, h3]

/-- C7 witness: the amended theorem applied to the concrete bad timestamp. -/
theorem C7_witness :
    ((normalizeEventData exP7.event_data).client_ts_str = some "not-a-date") ∧
    ("not-a-date".isEmpty = false) ∧
    (pyFromIso (replaceZ "not-a-date") = none) ∧
    EventSerializer_create {} 5 exCtx exP7
      = { db := {}, res := Except.error CreateErr.valueError } :=
  ⟨by decide, by decide, by decide,
   C7_theorem {} 5 exCtx exP7 "not-a-date" (by decide) (by decide) (by decide)⟩

/-- A lead whose property_address is populated (and, the canonicalizer being
the identity, already canonical). -/
def exLead9 : Lead := { id := 0, property_address := some "100 Main St" }

/-- A session whose location_data is already populated. -/
def exSess9 : Session := { session_id := "s1", location_data := some "geo", site_key := some "k" }

/-- The persisted event bound to exLead9 and exSess9. -/
def exEvent9 : Event :=
  { pk := 1, event_id := "e", schema_version := 1, site_key := "k", session_id := "s1",
    lead := some 0 }

/-- Store for the enrichment re-run scenario. -/
def exDb9 : DB :=
  { leads := [exLead9], sessions := [exSess9], events := [exEvent9],
    nextLeadId := 1, nextEventPk := 2 }

/-- Environment with an available GeoIP reader whose lookups raise. -/
def exEnv9 : Env :=
  { geoReader := some (fun _ => none), jsonDumps := fun _ _ => "", jsonLoads := fun _ => none }

/-- C9 counterexample.  The claim says a second enrichment run performs no
writes when the address is canonical and location_data is populated; here the
second run still saves the lead (the canonicalization marker was never
persisted), so its write list is the lead save, not empty. -/
theorem C9_counterexample :
    (process_event_data exEnv9 ((process_event_data exEnv9 exDb9 1).1) 1).2
      = [WriteOp.leadSave 0] := by
  exact rfl

/-- C9 amended: on every run (first or repeated), an event bound to a lead
with a truthy property_address and to a session with populated location_data
makes the enrichment task re-canonicalize and save the lead — exactly one
lead write, no session or event write; since the canonicalizer is the
identity the saved row carries the same values, but the claimed
write-freedom fails. -/
theorem C9_theorem (env : Env) (db : DB) (pk lid : Nat) (ev : Event) (L : Lead) (S : Session)
    (hev : db.events.find? (fun e => e.pk = pk) = some ev)
    (hlid : ev.lead = some lid)
    (hL : db.leads.find? (fun l => l.id = lid) = some L)
    (haddr : truthy L.property_address = true)
    (hS : db.sessions.find? (fun s => s.session_id = ev.session_id) = some S)
    (hloc : truthy S.location_data = true) :
    process_event_data env db pk = (saveLead db L, [WriteOp.leadSave L.id]) ∧
    (saveLead db L).sessions = db.sessions ∧
    (saveLead db L).events = db.events := by
  have hcanon : L.property_address.map canonicalize_address = L.property_address := by
    cases L.property_address <;> rfl
  have hLmk : { L with property_address := L.property_address.map canonicalize_address } = L := by
    rw [hcanon]
  refine ⟨?_, rfl, rfl⟩
  unfold process_event_data
  cases hg : env.geoReader with
  | none => simp [hev, hlid, Option.some_bind, hL, haddr, hLmk, saveLead, hS, hg]
  | some rd => simp [hev, hlid, Option.some_bind, hL, haddr, hLmk, saveLead, hS, hg, hloc]

/-- C9 witness: the amended theorem applied to the concrete re-run scenario. -/
theorem C9_witness :
    (exDb9.events.find? (fun e => e.pk = 1) = some exEvent9) ∧
    (exEvent9.lead = some 0) ∧
    (exDb9.leads.find? (fun l => l.id = 0) = some exLead9) ∧
    (truthy exLead9.property_address = true) ∧
    (exDb9.sessions.find? (fun s => s.session_id = exEvent9.session_id) = some exSess9) ∧
    (truthy exSess9.location_data = true) ∧
    (process_event_data exEnv9 exDb9 1 = (saveLead exDb9 exLead9, [WriteOp.leadSave exLead9.id]) ∧
     (saveLead exDb9 exLead9).sessions = exDb9.sessions ∧
     (saveLead exDb9 exLead9).events = exDb9.events) :=
  ⟨by decide, by decide, by decide, by decide, by decide, by decide,
   C9_theorem exEnv9 exDb9 1 0 exEvent9 exLead9 exSess9
     (by decide) (by decide) (by decide) (by decide) (by decide) (by decide)⟩

/-- An existing session for the lead-resolution scenarios, populated so the
touching event changes nothing. -/
def exSess2 : Session :=
  { session_id := "s1", site_key := some "k", user_agent := some "ua0",
    ip_address := some "1.2.3.4" }

/-- A lead matched by the email hint of the C2 scenario. -/
def exLeadA : Lead := { id := 0, email := some "a@x.com" }

/-- A different lead matched by the phone hint of the C2 scenario. -/
def exLeadB : Lead := { id := 1, phone := some "5551234" }

/-- Store holding the two leads of the C2 scenario and the session row. -/
def exDb2 : DB := { leads := [exLeadA, exLeadB], sessions := [exSess2], nextLeadId := 2 }

/-- A payload whose email hint matches exLeadA and whose phone hint matches
exLeadB. -/
def exP2 : Payload :=
  { schema_version := 1, site_key := "k", event_id := "aaaaaaaa-aaaa-aaaa-aaaa-aaaaaaaaaaaa",
    event_type := .page_load, session_id := "s1",
    email := some "a@x.com", phone := some "5551234" }

/-- C2 counterexample.  The claim says the email match wins and the event
succeeds; on this store — whose session row exists and whose payload carries
no identity hints, so the lead query is actually reached — the email hint
matches one lead and the phone hint another, and the single OR-query lookup
raises MultipleObjectsReturned, failing the event with no lead returned. -/
theorem C2_counterexample :
    (EventSerializer_create exDb2 5 exCtx exP2).res
      = Except.error CreateErr.multipleObjectsReturned := by
  exact rfl

/-- C2 amended: matching is one disjunctive query over all usable keys, not a
precedence order.  When the session step succeeds (the payload's session_id
matches an existing row and no truthy identity hint is present) and the
email hint matches one existing Lead while the phone hint matches a
different existing Lead, both rows satisfy the query, so Lead.objects.get
raises MultipleObjectsReturned, which propagates and fails the event; both
Leads (and the Event table) are left unchanged. -/
theorem C2_theorem (db : DB) (t : Nat) (ctx : ReqCtx) (p : Payload)
    (S : Session) (A B : Lead) (em ph : String)
    (hts : tsParses p = true)
    (hfind : db.sessions.find? (fun x => x.session_id = p.session_id) = some S)
    (hid : (truthy (normalizeEventData p.event_data).user_external_id
            || truthy (normalizeEventData p.event_data).user_email
            || truthy (normalizeEventData p.event_data).user_name) = false)
    (hem : (cleanedHints p).email = some em)
    (hph : (cleanedHints p).phone = some ph)
    (hA : A ∈ db.leads) (hB : B ∈ db.leads) (hAB : A ≠ B)
    (hAe : iexact A.email em = true)
    (hBp : B.phone = some ph) :
    (EventSerializer_create db t ctx p).res = Except.error CreateErr.multipleObjectsReturned ∧
    (EventSerializer_create db t ctx p).db.leads = db.leads ∧
    (EventSerializer_create db t ctx p).db.events = db.events := by
  obtain ⟨cts, hp⟩ := tsParses_ok hts
  have hifind : db.sessions.find?
      (fun x => x.session_id = (sessionInputsOf ctx p).session_id) = some S := hfind
  have hid' : (truthy (sessionInputsOf ctx p).user_external_id
      || truthy (sessionInputsOf ctx p).user_email
      || truthy (sessionInputsOf ctx p).user_name) = false := hid
  obtain ⟨ts, htouch, hleads, hevents⟩ :=
    touchSession_ok_of_found db t (sessionInputsOf ctx p) S hifind hid'
  have hmemE : LeadCond.emailI em ∈ leadConds (cleanedHints p) := by
    simp [leadConds, hem]
  have hmemP : LeadCond.phoneE ph ∈ leadConds (cleanedHints p) := by
    simp [leadConds, hph]
  have predA : leadPred (leadConds (cleanedHints p)) A = true := by
    unfold leadPred
    rw [List.any_eq_true]
    exact ⟨LeadCond.emailI em, hmemE, by simpa [condHolds] using hAe⟩
  have predB : leadPred (leadConds (cleanedHints p)) B = true := by
    unfold leadPred
    rw [List.any_eq_true]
    exact ⟨LeadCond.phoneE ph, hmemP, by simp [condHolds, hBp]⟩
  have h2 : 2 ≤ (ts.1.leads.filter (leadPred (leadConds (cleanedHints p)))).length := by
    rw [hleads]
    exact two_le_filter_length db.leads _ A B hA hB hAB predA predB
  have hr := resolveLead_ambiguous ts.1 t (cleanedHints p) h2
  rw [create_eq_err_lead db t ctx p hp htouch hr]
  exact ⟨rfl, hleads, hevents⟩

/-- C2 witness: the amended theorem applied to the concrete two-lead
scenario. -/
theorem C2_witness :
    (tsParses exP2 = true) ∧
    (exDb2.sessions.find? (fun x => x.session_id = exP2.session_id) = some exSess2) ∧
    ((truthy (normalizeEventData exP2.event_data).user_external_id
      || truthy (normalizeEventData exP2.event_data).user_email
      || truthy (normalizeEventData exP2.event_data).user_name) = false) ∧
    ((cleanedHints exP2).email = some "a@x.com") ∧
    ((cleanedHints exP2).phone = some "5551234") ∧
    (exLeadA ∈ exDb2.leads) ∧ (exLeadB ∈ exDb2.leads) ∧ (exLeadA ≠ exLeadB) ∧
    (iexact exLeadA.email "a@x.com" = true) ∧
    (exLeadB.phone = some "5551234") ∧
    ((EventSerializer_create exDb2 5 exCtx exP2).res
        = Except.error CreateErr.multipleObjectsReturned ∧
     (EventSerializer_create exDb2 5 exCtx exP2).db.leads = exDb2.leads ∧
     (EventSerializer_create exDb2 5 exCtx exP2).db.events = exDb2.events) :=
  ⟨by decide, by decide, by decide, by decide, by decide, by decide, by decide, by decide,
   by decide, by decide,
   C2_theorem exDb2 5 exCtx exP2 exSess2 exLeadA exLeadB "a@x.com" "5551234"
     (by decide) (by decide) (by decide) (by decide) (by decide) (by decide) (by decide)
     (by decide) (by decide) (by decide)⟩

/-- First lead of the ambiguous-address scenario. -/
def exLeadC : Lead := { id := 0, property_address := some "100 Main St" }

/-- Second lead sharing the same property_address. -/
def exLeadD : Lead := { id := 1, property_address := some "100 Main St" }

/-- Store holding the two address-sharing leads and the session row. -/
def exDb3 : DB := { leads := [exLeadC, exLeadD], sessions := [exSess2], nextLeadId := 2 }

/-- A payload hinting only the shared address. -/
def exP3 : Payload :=
  { schema_version := 1, site_key := "k", event_id := "aaaaaaaa-aaaa-aaaa-aaaa-aaaaaaaaaaaa",
    event_type := .page_load, session_id := "s1",
    property_address := some "100 Main St" }

/-- C3 counterexample.  The claim says an ambiguous address match never
raises and resolves deterministically to one lead; on this store — whose
session row exists, so the lead query is actually reached — two leads share
the address and the resolution raises MultipleObjectsReturned, failing the
event. -/
theorem C3_counterexample :
    (EventSerializer_create exDb3 5 exCtx exP3).res
      = Except.error CreateErr.multipleObjectsReturned := by
  exact rfl

/-- C3 amended: when the session step succeeds (existing session row, no
truthy identity hint) and two or more existing Leads satisfy the disjunctive
hint query (for example two leads sharing the hinted property_address),
Lead.objects.get raises MultipleObjectsReturned, which propagates and fails
the event; no deterministic pick happens, no lead is merged or created, and
no Event row is written. -/
theorem C3_theorem (db : DB) (t : Nat) (ctx : ReqCtx) (p : Payload) (S : Session)
    (hts : tsParses p = true)
    (hfind : db.sessions.find? (fun x => x.session_id = p.session_id) = some S)
    (hid : (truthy (normalizeEventData p.event_data).user_external_id
            || truthy (normalizeEventData p.event_data).user_email
            || truthy (normalizeEventData p.event_data).user_name) = false)
    (h2 : 2 ≤ ((db.leads.filter (leadPred (leadConds (cleanedHints p)))).length)) :
    (EventSerializer_create db t ctx p).res = Except.error CreateErr.multipleObjectsReturned ∧
    (EventSerializer_create db t ctx p).db.leads = db.leads ∧
    (EventSerializer_create db t ctx p).db.events = db.events := by
  obtain ⟨cts, hp⟩ := tsParses_ok hts
  have hifind : db.sessions.find?
      (fun x => x.session_id = (sessionInputsOf ctx p).session_id) = some S := hfind
  have hid' : (truthy (sessionInputsOf ctx p).user_external_id
      || truthy (sessionInputsOf ctx p).user_email
      || truthy (sessionInputsOf ctx p).user_name) = false := hid
  obtain ⟨ts, htouch, hleads, hevents⟩ :=
    touchSession_ok_of_found db t (sessionInputsOf ctx p) S hifind hid'
  have h2' : 2 ≤ (ts.1.leads.filter (leadPred (leadConds (cleanedHints p)))).length := by
    rw [hleads]
    exact h2
  have hr := resolveLead_ambiguous ts.1 t (cleanedHints p) h2'
  rw [create_eq_err_lead db t ctx p hp htouch hr]
  exact ⟨rfl, hleads, hevents⟩

/-- C3 witness: the amended theorem applied to the shared-address store. -/
theorem C3_witness :
    (tsParses exP3 = true) ∧
    (exDb3.sessions.find? (fun x => x.session_id = exP3.session_id) = some exSess2) ∧
    ((truthy (normalizeEventData exP3.event_data).user_external_id
      || truthy (normalizeEventData exP3.event_data).user_email
      || truthy (normalizeEventData exP3.event_data).user_name) = false) ∧
    (2 ≤ ((exDb3.leads.filter (leadPred (leadConds (cleanedHints exP3)))).length)) ∧
    ((EventSerializer_create exDb3 5 exCtx exP3).res
        = Except.error CreateErr.multipleObjectsReturned ∧
     (EventSerializer_create exDb3 5 exCtx exP3).db.leads = exDb3.leads ∧
     (EventSerializer_create exDb3 5 exCtx exP3).db.events = exDb3.events) :=
  ⟨by decide, by decide, by decide, by decide,
   C3_theorem exDb3 5 exCtx exP3 exSess2 (by decide) (by decide) (by decide) (by decide)⟩

/-- A lead with first_name already set, matched by email in the C4 scenario. -/
def exLead4 : Lead := { id := 0, first_name := some "Alice", email := some "a@x.com" }

/-- Store holding exLead4 and the session row. -/
def exDb4 : DB := { leads := [exLead4], sessions := [exSess2], nextLeadId := 1 }

/-- A payload matching exLead4 by email and supplying a different
first_name. -/
def exP4 : Payload :=
  { schema_version := 1, site_key := "k", event_id := "aaaaaaaa-aaaa-aaaa-aaaa-aaaaaaaaaaaa",
    event_type := .page_load, session_id := "s1",
    email := some "a@x.com", first_name := some "Bob" }

/-- C4 counterexample.  The claim says a non-null stored first_name is never
replaced by a different incoming first_name; on this store — whose session
row exists, so the merge is actually reached — the matched lead's stored
first_name Alice ends up overwritten with the incoming Bob. -/
theorem C4_counterexample :
    ((EventSerializer_create exDb4 5 exCtx exP4).db.leads.map (fun l => l.first_name))
      = [some "Bob"] := by
  exact rfl

/-- C4 amended: the merge is last-write-wins, not fill-missing-only.  When
the session step succeeds (existing session row, no truthy identity hint)
and exactly one Lead matches the hint query, every supplied (non-blank) hint
field overwrites the matched Lead's stored value — whether or not it was
null — and fields without a supplied hint are left unchanged. -/
theorem C4_theorem (db : DB) (t : Nat) (ctx : ReqCtx) (p : Payload) (S : Session) (A : Lead)
    (hts : tsParses p = true)
    (hfind : db.sessions.find? (fun x => x.session_id = p.session_id) = some S)
    (hid : (truthy (normalizeEventData p.event_data).user_external_id
            || truthy (normalizeEventData p.event_data).user_email
            || truthy (normalizeEventData p.event_data).user_name) = false)
    (hone : db.leads.filter (leadPred (leadConds (cleanedHints p))) = [A]) :
    (EventSerializer_create db t ctx p).db.leads
      = db.leads.map (fun l => if l.id = A.id then applyHints A (cleanedHints p) else l) ∧
    (∀ v, (cleanedHints p).first_name = some v → (applyHints A (cleanedHints p)).first_name = some v) ∧
    ((cleanedHints p).first_name = none → (applyHints A (cleanedHints p)).first_name = A.first_name) ∧
    (∀ v, (cleanedHints p).last_name = some v → (applyHints A (cleanedHints p)).last_name = some v) ∧
    ((cleanedHints p).last_name = none → (applyHints A (cleanedHints p)).last_name = A.last_name) ∧
    (∀ v, (cleanedHints p).email = some v → (applyHints A (cleanedHints p)).email = some v) ∧
    ((cleanedHints p).email = none → (applyHints A (cleanedHints p)).email = A.email) ∧
    (∀ v, (cleanedHints p).phone = some v → (applyHints A (cleanedHints p)).phone = some v) ∧
    ((cleanedHints p).phone = none → (applyHints A (cleanedHints p)).phone = A.phone) ∧
    (∀ v, (cleanedHints p).property_address = some v →
      (applyHints A (cleanedHints p)).property_address = some v) ∧
    ((cleanedHints p).property_address = none →
      (applyHints A (cleanedHints p)).property_address = A.property_address) := by
  obtain ⟨cts, hp⟩ := tsParses_ok hts
  have hifind : db.sessions.find?
      (fun x => x.session_id = (sessionInputsOf ctx p).session_id) = some S := hfind
  have hid' : (truthy (sessionInputsOf ctx p).user_external_id
      || truthy (sessionInputsOf ctx p).user_email
      || truthy (sessionInputsOf ctx p).user_name) = false := hid
  obtain ⟨ts, htouch, hleads, hevents⟩ :=
    touchSession_ok_of_found db t (sessionInputsOf ctx p) S hifind hid'
  have hone' : ts.1.leads.filter (leadPred (leadConds (cleanedHints p))) = [A] := by
    rw [hleads]
    exact hone
  have hr := resolveLead_single ts.1 t (cleanedHints p) A hone'
  refine ⟨?_, ?_, ?_, ?_, ?_, ?_, ?_, ?_, ?_, ?_, ?_⟩
  · rw [create_db_leads db t ctx p hp htouch hr]
    show (ts.1.leads.map _) = _
    rw [hleads]
    rfl
  · intro v hv
    simp [applyHints, ovr, hv]
  · intro hv
    simp [applyHints, ovr, hv]
  · intro v hv
    simp [applyHints, ovr, hv]
  · intro hv
    simp [applyHints, ovr, hv]
  · intro v hv
    simp [applyHints, ovr, hv]
  · intro hv
    simp [applyHints, ovr, hv]
  · intro v hv
    simp [applyHints, ovr, hv]
  · intro hv
    simp [applyHints, ovr, hv]
  · intro v hv
    simp [applyHints, ovr, hv]
  · intro hv
    simp [applyHints, ovr, hv]

/-- C4 witness: the amended theorem applied to the concrete overwrite
scenario (stored Alice, incoming Bob). -/
theorem C4_witness :
    (tsParses exP4 = true) ∧
    (exDb4.sessions.find? (fun x => x.session_id = exP4.session_id) = some exSess2) ∧
    ((truthy (normalizeEventData exP4.event_data).user_external_id
      || truthy (normalizeEventData exP4.event_data).user_email
      || truthy (normalizeEventData exP4.event_data).user_name) = false) ∧
    (exDb4.leads.filter (leadPred (leadConds (cleanedHints exP4))) = [exLead4]) ∧
    ((EventSerializer_create exDb4 5 exCtx exP4).db.leads
        = exDb4.leads.map
            (fun l => if l.id = exLead4.id then applyHints exLead4 (cleanedHints exP4) else l)) :=
  ⟨by decide, by decide, by decide, by decide,
   (C4_theorem exDb4 5 exCtx exP4 exSess2 exLead4 (by decide) (by decide) (by decide)
     (by decide)).1⟩

/-- An existing session for the identity-hint scenarios. -/
def exSess5 : Session :=
  { session_id := "s1", site_key := some "k", user_agent := some "ua0",
    ip_address := some "1.2.3.4" }

/-- Store holding exSess5. -/
def exDb5 : DB := { sessions := [exSess5] }

/-- A payload bearing identity hints inside event_data. -/
def exP5 : Payload :=
  { schema_version := 1, site_key := "k", event_id := "aaaaaaaa-aaaa-aaaa-aaaa-aaaaaaaaaaaa",
    event_type := .page_load, session_id := "s1",
    event_data := [("identity_user_email", "B@X.com"), ("identity_user_name", "Bob")] }

/-- C5 counterexample.  The claim says an event bearing a case-insensitively
different user_email replaces the session's stored user_email with the
lower-cased value; in reality the Session model has no user_email column at
all, and an event bearing a truthy identity_user_email against an existing
session raises AttributeError at the identity-merge step, failing the event
with nothing written. -/
theorem C5_counterexample :
    EventSerializer_create exDb5 5 exCtx exP5
      = { db := exDb5, res := Except.error CreateErr.attributeError } := by
  exact rfl

/-- C5 amended: the Session model defines no user_email or user_name column,
so no overwrite-if-different (or any) user_email semantics exist.  For every
existing Session row, an event bearing a truthy identity_user_email reaches
the read of session.user_email at the identity-merge step, which raises
AttributeError: the event fails and the store is unchanged — in particular
nothing is ever overwritten and no user_name is ever stored. -/
theorem C5_theorem (db : DB) (t : Nat) (ctx : ReqCtx) (p : Payload) (S : Session)
    (hts : tsParses p = true)
    (hfind : db.sessions.find? (fun x => x.session_id = p.session_id) = some S)
    (hmail : truthy (normalizeEventData p.event_data).user_email = true) :
    EventSerializer_create db t ctx p
      = { db := db, res := Except.error CreateErr.attributeError } := by
  obtain ⟨cts, hp⟩ := tsParses_ok hts
  have hifind : db.sessions.find?
      (fun x => x.session_id = (sessionInputsOf ctx p).session_id) = some S := hfind
  have hmail' : truthy (sessionInputsOf ctx p).user_email = true := hmail
  have hid : (truthy (sessionInputsOf ctx p).user_external_id
      || truthy (sessionInputsOf ctx p).user_email
      || truthy (sessionInputsOf ctx p).user_name) = true := by
    rw [hmail']
    simp
  exact create_eq_err_sess db t ctx p hp
    (touchSession_identity_crash db t (sessionInputsOf ctx p) S hifind hid)

/-- C5 witness: the amended theorem applied to the session touched with
identity_user_email B@X.com. -/
theorem C5_witness :
    (tsParses exP5 = true) ∧
    (exDb5.sessions.find? (fun x => x.session_id = exP5.session_id) = some exSess5) ∧
    (truthy (normalizeEventData exP5.event_data).user_email = true) ∧
    EventSerializer_create exDb5 5 exCtx exP5
      = { db := exDb5, res := Except.error CreateErr.attributeError } :=
  ⟨by decide, by decide, by decide,
   C5_theorem exDb5 5 exCtx exP5 exSess5 (by decide) (by decide) (by decide)⟩

/-- A session on which the touching event changes no merged field: every
fill-missing field is already populated with the incoming values and the
payload carries no identity hints. -/
def exSess6 : Session :=
  { session_id := "s1", client_id := some "c", site_key := some "k",
    user_agent := some "ua0", ip_address := some "1.2.3.4", first_seen := 0, last_seen := 0 }

/-- Store holding exSess6. -/
def exDb6 : DB := { sessions := [exSess6] }

/-- A payload touching exSess6 without changing anything. -/
def exP6 : Payload :=
  { schema_version := 1, site_key := "k", event_id := "aaaaaaaa-aaaa-aaaa-aaaa-aaaaaaaaaaaa",
    event_type := .page_load, session_id := "s1", client_id := some "c" }

/-- C6 counterexample.  The claim says every touch — including one where no
other field changes — updates last_seen to the current server time; here a
no-change touch at time 5 leaves last_seen at 0, because session.save() is
only called when some merged field changed. -/
theorem C6_counterexample :
    ((EventSerializer_create exDb6 5 exCtx exP6).db.sessions.map (fun s => s.last_seen))
      = [0] := by
  exact rfl

/-- C6 amended: an event whose session_id has no matching row never creates
one — the get_or_create defaults carry three keys the Session model lacks,
so the session step raises FieldError and the store is unchanged.  An event
whose session_id matches an existing row and which carries no truthy
identity hint resolves to that row: first_seen never changes, the table
keeps its size, and last_seen is bumped to the current server time only on
touches where the merge changed some field — a touch changing nothing leaves
last_seen untouched — so last_seen is still monotonically non-decreasing
when touch times are non-decreasing. -/
theorem C6_theorem (db : DB) (t : Nat) (ctx : ReqCtx) (p : Payload)
    (hts : tsParses p = true) :
    (db.sessions.find? (fun x => x.session_id = p.session_id) = none →
      EventSerializer_create db t ctx p = { db := db, res := Except.error CreateErr.fieldError }) ∧
    (∀ S, db.sessions.find? (fun x => x.session_id = p.session_id) = some S →
      truthy (normalizeEventData p.event_data).user_external_id = false →
      truthy (normalizeEventData p.event_data).user_email = false →
      truthy (normalizeEventData p.event_data).user_name = false →
      S.last_seen ≤ t →
      ∃ S', (EventSerializer_create db t ctx p).db.sessions.find?
              (fun x => x.session_id = p.session_id) = some S' ∧
        S'.session_id = S.session_id ∧
        S'.first_seen = S.first_seen ∧
        (S'.last_seen = S.last_seen ∨ S'.last_seen = t) ∧
        S.last_seen ≤ S'.last_seen ∧
        (EventSerializer_create db t ctx p).db.sessions.length = db.sessions.length) := by
  obtain ⟨cts, hp⟩ := tsParses_ok hts
  constructor
  · intro hnone
    have hifind : db.sessions.find?
        (fun x => x.session_id = (sessionInputsOf ctx p).session_id) = none := hnone
    exact create_eq_err_sess db t ctx p hp
      (touchSession_none db t (sessionInputsOf ctx p) hifind)
  · intro S hfind h1 h2 h3 hle
    have hSsid : S.session_id = p.session_id := by
      have h := List.find?_some hfind
      simpa using h
    have hifind : db.sessions.find?
        (fun x => x.session_id = (sessionInputsOf ctx p).session_id) = some S := hfind
    have g1 : truthy (sessionInputsOf ctx p).user_external_id = false := h1
    have g2 : truthy (sessionInputsOf ctx p).user_email = false := h2
    have g3 : truthy (sessionInputsOf ctx p).user_name = false := h3
    have hid : (truthy (sessionInputsOf ctx p).user_external_id
        || truthy (sessionInputsOf ctx p).user_email
        || truthy (sessionInputsOf ctx p).user_name) = false := by
      rw [g1, g2, g3]
      rfl
    cases hch : (mergeSession S (sessionInputsOf ctx p)).2 with
    | false =>
      have htouch := touchSession_unchanged db t (sessionInputsOf ctx p) S hifind hid hch
      have hsess := create_db_sessions db t ctx p hp htouch
      refine ⟨S, ?_, rfl, rfl, Or.inl rfl, le_refl _, ?_⟩
      · rw [hsess]
        exact hfind
      · rw [hsess]
    | true =>
      have htouch := touchSession_changed db t (sessionInputsOf ctx p) S hifind hid hch
      have hsess := create_db_sessions db t ctx p hp htouch
      have hMsid : (mergeSession S (sessionInputsOf ctx p)).1.session_id = p.session_id := by
        rw [mergeSession_session_id]
        exact hSsid
      have hsome : (db.sessions.find? (fun x => x.session_id = p.session_id)).isSome = true := by
        rw [hfind]
        rfl
      refine ⟨{ (mergeSession S (sessionInputsOf ctx p)).1 with last_seen := t },
        ?_, ?_, ?_, Or.inr rfl, hle, ?_⟩
      · rw [hsess]
        exact find_save_session db.sessions (mergeSession S (sessionInputsOf ctx p)).1 t
          p.session_id hMsid hsome
      · exact mergeSession_session_id S (sessionInputsOf ctx p)
      · exact mergeSession_first_seen S (sessionInputsOf ctx p)
      · rw [hsess]
        simp [saveSession]

/-- C6 witness: the amended theorem applied to a touch at time 5 of an
existing session last seen at time 0. -/
theorem C6_witness :
    (tsParses exP6 = true) ∧
    (exDb6.sessions.find? (fun x => x.session_id = exP6.session_id) = some exSess6) ∧
    (∃ S', (EventSerializer_create exDb6 5 exCtx exP6).db.sessions.find?
            (fun x => x.session_id = exP6.session_id) = some S' ∧
      S'.session_id = exSess6.session_id ∧
      S'.first_seen = exSess6.first_seen ∧
      (S'.last_seen = exSess6.last_seen ∨ S'.last_seen = 5) ∧
      exSess6.last_seen ≤ S'.last_seen ∧
      (EventSerializer_create exDb6 5 exCtx exP6).db.sessions.length
        = exDb6.sessions.length) :=
  ⟨by decide, by decide,
   (C6_theorem exDb6 5 exCtx exP6 (by decide)).2 exSess6 (by decide) (by decide)
     (by decide) (by decide) (by decide)⟩

/-- Environment for the view scenarios: no GeoIP reader. -/
def exEnv0 : Env := { geoReader := none, jsonDumps := fun _ _ => "", jsonLoads := fun _ => none }

/-- An existing session for the batch scenario, populated so the first item
changes nothing. -/
def exSess8 : Session :=
  { session_id := "s1", site_key := some "k", user_agent := some "ua0",
    ip_address := some "1.2.3.4" }

/-- Store holding exSess8, so the batch items can persist at all. -/
def exDb8 : DB := { sessions := [exSess8] }

/-- First (valid) raw payload of the batch. -/
def exR1 : RawPayload :=
  { v := some 1, site_key := some "k", event_id := some "11111111-1111-1111-1111-111111111111",
    event_type := some "page_load", session_id := some "s1" }

/-- Second payload of the batch, invalid because of an unknown event_type. -/
def exRbad : RawPayload :=
  { exR1 with
    event_id := some "22222222-2222-2222-2222-222222222222"
    event_type := some "bogus" }

/-- Third (valid) raw payload of the batch. -/
def exR3 : RawPayload :=
  { exR1 with event_id := some "33333333-3333-3333-3333-333333333333" }

/-- C8 counterexample.  The claim says an Event row is created for every
valid item including those after the invalid one; here the batch
[valid, invalid, valid] — against a store whose session row exists, so the
valid items can persist — produces a 400 naming the bad field, an Event row
for item 1 only, and no row for item 3. -/
theorem C8_counterexample :
    (CollectView_post exEnv0 exDb8 5 exCtx [exR1, exRbad, exR3]).2
      = Resp.badRequest400 ["event_type"] ∧
    ((CollectView_post exEnv0 exDb8 5 exCtx [exR1, exRbad, exR3]).1.events.map
      (fun e => e.event_id))
      = ["11111111-1111-1111-1111-111111111111"] := by
  exact ⟨rfl, rfl⟩

/-- C8 amended: batch processing is fail-fast, not per-item: items are
validated and saved in order, and the first invalid item aborts the request
with its structured field errors as a 400 response; items before it that
saved successfully are already persisted (their enrichment hooks are not
run), and items after it are not processed at all.  An exception escaping
save — notably the session step's FieldError for any item bearing a
previously unseen session_id — instead aborts the request with a server
error. -/
theorem C8_theorem (env : Env) (db : DB) (t : Nat) (ctx : ReqCtx)
    (p1 pbad : RawPayload) (rest : List RawPayload) (pk : Nat)
    (h1 : (validationErrors p1).isEmpty = true)
    (hok : (EventSerializer_create db t ctx (toPayload p1)).res = .ok pk)
    (hbad : (validationErrors pbad).isEmpty = false) :
    CollectView_post env db t ctx (p1 :: pbad :: rest)
      = ((EventSerializer_create db t ctx (toPayload p1)).db,
         Resp.badRequest400 (validationErrors pbad)) := by
  unfold CollectView_post
  rw [collectLoop_cons_valid env t ctx db [] p1 (pbad :: rest) pk h1 hok]
  rw [collectLoop_cons_invalid env t ctx
    (EventSerializer_create db t ctx (toPayload p1)).db ([] ++ [pk]) pbad rest hbad]

/-- C8 witness: the amended theorem applied to the concrete
[valid, invalid, valid] batch. -/
theorem C8_witness :
    ((validationErrors exR1).isEmpty = true) ∧
    ((EventSerializer_create exDb8 5 exCtx (toPayload exR1)).res = .ok 0) ∧
    ((validationErrors exRbad).isEmpty = false) ∧
    CollectView_post exEnv0 exDb8 5 exCtx [exR1, exRbad, exR3]
      = ((EventSerializer_create exDb8 5 exCtx (toPayload exR1)).db,
         Resp.badRequest400 (validationErrors exRbad)) :=
  ⟨by decide, by decide, by decide,
   C8_theorem exEnv0 exDb8 5 exCtx exR1 exRbad [exR3] 0 (by decide) (by decide) (by decide)⟩

/-- Server-generated session id of the GIF scenarios (time plus random hex,
as generate_simple_session_id produces). -/
def exSid : String := "sid_1_abcd1234"

/-- Server-generated client id of the GIF scenarios. -/
def exCid : String := "cid_1_abcd1234"

/-- Server-generated event uuid of the GIF scenarios. -/
def exEid : String := "123e4567-e89b-12d3-a456-426614174000"

/-- C10 counterexample.  The claim says each GIF hit creates a brand-new
Session row and a brand-new Event row; in reality the default noscript hit
carries a freshly generated session_id, so the session step's get_or_create
raises FieldError over its invalid defaults keys: the view aborts with a
server error, creates no rows, and does not even return the GIF. -/
theorem C10_counterexample :
    collect_gif_view {} 7 exCtx [] exSid exCid exEid = ({}, GifResp.serverError500) := by
  exact rfl

/-- C10 amended: the GIF endpoint unconditionally replaces any
client-supplied session_id, client_id and event_id with the server-generated
values, so a hit can never attach to an existing session nor be
deduplicated; but no GIF hit ever creates a Session or Event row: a hit
whose assembled payload passes validation carries a fresh generated
session_id, whose absent row sends get_or_create into its always-raising
create branch (FieldError from the invalid defaults keys), so ser.save()
raises and the view returns a server error with the store unchanged — while
a hit that fails validation also creates no rows but does return the GIF. -/
theorem C10_theorem (db : DB) (t : Nat) (ctx : ReqCtx)
    (params : List (String × String)) (sid cid eid : String)
    (hval : (validationErrors (gifRaw params sid cid eid)).isEmpty = true)
    (hned : qlookup params "event_data" = none)
    (hfs : db.sessions.find? (fun s => s.session_id = sid) = none) :
    ((gifRaw params sid cid eid).session_id = some sid ∧
     (gifRaw params sid cid eid).client_id = some cid ∧
     (gifRaw params sid cid eid).event_id = some eid) ∧
    collect_gif_view db t ctx params sid cid eid = (db, GifResp.serverError500) := by
  have hped : (toPayload (gifRaw params sid cid eid)).event_data = [] := by
    simp [toPayload, gifRaw, hned]
  have hp : parse_client_ts (normalizeEventData
      (toPayload (gifRaw params sid cid eid)).event_data).client_ts_str = .ok none := by
    rw [hped]
    rfl
  have hifind : db.sessions.find?
      (fun s => s.session_id
        = (sessionInputsOf ctx (toPayload (gifRaw params sid cid eid))).session_id)
      = none := hfs
  have hcreate := create_eq_err_sess db t ctx (toPayload (gifRaw params sid cid eid)) hp
    (touchSession_none db t (sessionInputsOf ctx (toPayload (gifRaw params sid cid eid))) hifind)
  refine ⟨⟨rfl, rfl, rfl⟩, ?_⟩
  unfold collect_gif_view
  rw [if_pos hval, hcreate]

/-- C10 witness: the amended theorem applied to a default (parameterless) GIF
hit on an empty store with a fresh generated session id. -/
theorem C10_witness :
    ((validationErrors (gifRaw [] exSid exCid exEid)).isEmpty = true) ∧
    (qlookup ([] : List (String × String)) "event_data" = none) ∧
    (({} : DB).sessions.find? (fun s => s.session_id = exSid) = none) ∧
    (((gifRaw [] exSid exCid exEid).session_id = some exSid ∧
      (gifRaw [] exSid exCid exEid).client_id = some exCid ∧
      (gifRaw [] exSid exCid exEid).event_id = some exEid) ∧
     collect_gif_view {} 7 exCtx [] exSid exCid exEid = ({}, GifResp.serverError500)) :=
  ⟨by decide, by decide, by decide,
   C10_theorem {} 7 exCtx [] exSid exCid exEid (by decide) (by decide) (by decide)⟩

end TrackingPixel
